import Mathlib

/-!
Verification development for the agentic repository excerpt: the RAG helper
module (agentic/utils/rag_helper.py), the event classes (agentic/events.py)
and the browser-use tool (agentic/tools/browser_use.py).

The weaviate client is modelled as explicit state: a client state is an
association list from collection names to collections, and a collection is a
schema together with a list of stored objects.  Every stored object carries
the nine properties of the standard schema plus its vector.  External
functions that are consumed as pure values (the SHA-256 hex digest, the
fingerprint generator, the embedding model, the clock) are parameters of the
embedded functions, so every theorem below holds for all of their
interpretations.
-/

namespace Agentic

/-- Data types of the weaviate schema properties used by create_collection. -/
inductive WDataType where
| text
| int
| date
deriving DecidableEq, Repr

/-- A property of a weaviate collection schema, as built by the Property
constructor calls in create_collection. -/
structure WProperty where
  name : String
  data_type : WDataType
  index_filterable : Bool := false
  index_range_filter : Bool := false
  index_searchable : Bool := false
deriving DecidableEq, Repr

/-- Distance metrics of weaviate.classes.config.VectorDistances; COSINE is
the default of create_collection. -/
inductive VectorDistances where
| cosine
| dot
| l2_squared
| hamming
| manhattan
deriving DecidableEq, Repr

/-- The vector index configuration passed to create_collection
(Configure.VectorIndex.hnsw with a distance metric). -/
structure WVectorIndexConfig where
  index_type : String := "hnsw"
  distance_metric : VectorDistances
deriving DecidableEq, Repr

/-- A collection configuration: the declared properties, whether the
vectorizer is none, and the vector index configuration. -/
structure WCollectionConfig where
  properties : List WProperty
  vectorizer_none : Bool := true
  vector_index : WVectorIndexConfig
deriving DecidableEq, Repr

/-- The standard schema created by create_collection in rag_helper.py,
line for line from the Property list in the source. -/
def standardSchema (distance_metric : VectorDistances) : WCollectionConfig :=
  { properties := [
      { name := "content", data_type := .text },
      { name := "document_id", data_type := .text, index_filterable := true },
      { name := "chunk_index", data_type := .int, index_filterable := true,
        index_range_filter := true },
      { name := "filename", data_type := .text, index_filterable := true },
      { name := "timestamp", data_type := .date, index_filterable := true },
      { name := "mime_type", data_type := .text, index_filterable := true },
      { name := "source_url", data_type := .text, index_filterable := true },
      { name := "summary", data_type := .text, index_searchable := true,
        index_filterable := true },
      { name := "fingerprint", data_type := .text, index_filterable := true } ],
    vectorizer_none := true,
    vector_index := { distance_metric := distance_metric } }

/-- A stored object: the nine schema properties together with the vector.
Vector components are modelled as integers; none of the verified functions
computes with them, they are only stored and copied. -/
structure WObject where
  content : String := ""
  document_id : String := ""
  chunk_index : Int := 0
  filename : String := ""
  timestamp : String := ""
  mime_type : String := ""
  source_url : String := ""
  summary : String := ""
  fingerprint : String := ""
  vector : List Int := []
deriving DecidableEq, Repr

/-- A weaviate collection: its schema configuration and its objects, in
insertion order. -/
structure WCollection where
  config : WCollectionConfig
  objects : List WObject
deriving DecidableEq, Repr

/-- The client state: the collections, as an association list from name to
collection. -/
abbrev ClientState := List (String × WCollection)

/-- The client's collections.exists check. -/
def collections_exists (s : ClientState) (name : String) : Bool :=
  s.any (fun p => p.1 == name)

/-- The client's collections.create: appends a fresh empty collection with
the given configuration. -/
def collections_create (s : ClientState) (name : String)
    (config : WCollectionConfig) : ClientState :=
  s ++ [(name, { config := config, objects := [] })]

/-- The client's collections.delete: removes every entry with that name. -/
def collections_delete (s : ClientState) (name : String) : ClientState :=
  s.filter (fun p => p.1 != name)

/-- The client's collections.get, resolved at use time: the first collection
with that name, if any. -/
def collections_get (s : ClientState) (name : String) : Option WCollection :=
  (s.find? (fun p => p.1 == name)).map (fun p => p.2)

/-- A batch of add_object calls on the named collection: appends the objects
(properties and vector) to that collection. -/
def batch_add_objects (s : ClientState) (name : String)
    (objs : List WObject) : ClientState :=
  s.map (fun p =>
    if p.1 == name then (p.1, { p.2 with objects := p.2.objects ++ objs })
    else p)

/-- The client's query.fetch_objects on a collection: the objects passing
the filter, truncated to the limit. -/
def fetch_objects (objects : List WObject) (limit : Nat)
    (filter : WObject → Bool) : List WObject :=
  (objects.filter filter).take limit

/-- The client's aggregate.over_all total_count with a filter: the number of
objects passing the filter. -/
def aggregate_total_count (objects : List WObject)
    (filter : WObject → Bool) : Nat :=
  (objects.filter filter).length

/-- The client's data.delete_many with a where filter: removes the matching
objects and reports the number it deleted (the result's successful field). -/
def delete_many (objects : List WObject)
    (filter : WObject → Bool) : List WObject × Nat :=
  (objects.filter (fun o => !(filter o)), (objects.filter filter).length)

/-- The create_collection helper of rag_helper.py: creates the standard
schema only when no collection of that name exists. -/
def create_collection (s : ClientState) (index_name : String)
    (distance_metric : VectorDistances := .cosine) : ClientState :=
  if !(collections_exists s index_name) then
    collections_create s index_name (standardSchema distance_metric)
  else s

/-- The check_document_exists helper of rag_helper.py: fetches at most one
object by document_id, compares its stored fingerprint, and otherwise looks
for any object with the given fingerprint. -/
def check_document_exists (objects : List WObject)
    (document_id : String) (fingerprint : String) : Bool × String :=
  let existing_docs := fetch_objects objects 1
    (fun o => o.document_id == document_id)
  match existing_docs with
  | o :: _ =>
    if o.fingerprint == fingerprint then (true, "unchanged")
    else (true, "changed")
  | [] =>
    let existing_content := fetch_objects objects 1
      (fun o => o.fingerprint == fingerprint)
    if !existing_content.isEmpty then (true, "duplicate")
    else (false, "new")

/-- The delete_document_from_index helper of rag_helper.py: counts the
chunks of the document, deletes them through the client, raises RuntimeError
(modelled as Except.error) when the client's reported count differs from the
pre-deletion count, and otherwise returns the reported count.  The filename
argument is accepted and unused, as in the source. -/
def delete_document_from_index (objects : List WObject)
    (document_id : String) (filename : String) :
    List WObject × Except String Nat :=
  let original_count := aggregate_total_count objects
    (fun o => o.document_id == document_id)
  let deletion := delete_many objects (fun o => o.document_id == document_id)
  if deletion.2 != original_count then
    (deletion.1, .error "RuntimeError: deleted chunk count mismatch")
  else (deletion.1, .ok deletion.2)

/-- The check_document_in_index helper of rag_helper.py. -/
def check_document_in_index (objects : List WObject)
    (document_id : String) : Bool :=
  !(fetch_objects objects 1 (fun o => o.document_id == document_id)).isEmpty

/-- The rename_collection helper of rag_helper.py, state passing.  The
source handle obtained by collections.get is lazy, so the source objects are
read at iteration time, after the target has been deleted and recreated. -/
def rename_collection (s : ClientState) (source_name target_name : String)
    (overwrite : Bool := false) : ClientState × Bool :=
  if !(collections_exists s source_name) then (s, false)
  else
    match (if collections_exists s target_name then
             (if overwrite then some (collections_delete s target_name)
              else none)
           else some s) with
    | none => (s, false)
    | some s1 =>
      let s2 := create_collection s1 target_name
      let source_objects := match collections_get s2 source_name with
        | some c => c.objects
        | none => []
      let s3 := batch_add_objects s2 target_name source_objects
      let s4 := collections_delete s3 source_name
      (s4, true)

/-- Whether a path is a URL, as tested by file_path.startswith on the pair
of the http and https schemes. -/
def isUrl (file_path : String) : Bool :=
  file_path.startsWith "http://" || file_path.startsWith "https://"

/-- The name attribute of pathlib.Path: the last nonempty component of the
path, the empty string when there is none. -/
def pathlibName (p : String) : String :=
  (((p.splitOn "/").filter (fun s => s != "")).getLast?).getD ""

/-- Modelled from the spec: get_last_path_component of
agentic/utils/file_reader.py is not part of the excerpt; it extracts the
last component of a URL path. -/
def get_last_path_component (url : String) : String :=
  (((url.splitOn "/").filter (fun s => s != "")).getLast?).getD ""

/-- The metadata dict produced by prepare_document_metadata: six string
entries with fixed keys. -/
structure DocumentMetadata where
  filename : String
  timestamp : String
  mime_type : String
  source_url : String
  fingerprint : String
  document_id : String
deriving DecidableEq, Repr

/-- The prepare_document_metadata helper of rag_helper.py.  The SHA-256 hex
digest, the fingerprint generator and the clock are impure or external, so
they are taken as parameters; everything else follows the source line for
line. -/
def prepare_document_metadata (sha256_hex : String → String)
    (generate_fingerprint : String → String) (utcnow : String)
    (file_path : String) (text : String) (mime_type : String)
    (model : String) : DocumentMetadata :=
  let is_url := isUrl file_path
  let fingerprint := generate_fingerprint text
  let filename :=
    if !is_url then pathlibName file_path else get_last_path_component file_path
  { filename := filename,
    timestamp := utcnow,
    mime_type := mime_type,
    source_url := if is_url then file_path else "None",
    fingerprint := fingerprint,
    document_id := sha256_hex filename }

/-- The get_document_id_from_path helper of rag_helper.py: returns the pair
of the document id (the SHA-256 hex digest of the extracted filename, with
the digest as a parameter) and the filename. -/
def get_document_id_from_path (sha256_hex : String → String)
    (file_path : String) : String × String :=
  let is_url := isUrl file_path
  let filename :=
    if !is_url then pathlibName file_path else get_last_path_component file_path
  (sha256_hex filename, filename)

/-- A property-equality filter, Filter.by_property(key).equal(value). -/
structure PropertyEqualFilter where
  prop : String
  value : String
deriving DecidableEq, Repr

/-- The search_params dict built by search_collection: limit, metadata and
property selections, and the optional filters entry. -/
structure SearchParams where
  limit : Nat
  return_metadata : List String
  return_properties : List String
  filters : Option PropertyEqualFilter
deriving DecidableEq, Repr

/-- The conditional marshaling of the caller's filters dict in
search_collection: a filters entry is added to search_params only when the
dict is truthy and has exactly one item, and then it is the
property-equality filter of that single key and value. -/
def build_search_filters (filters : Option (List (String × String))) :
    Option PropertyEqualFilter :=
  match filters with
  | some [(key, value)] => some { prop := key, value := value }
  | _ => none

/-- A result object of a near_vector query: the four requested properties
(absent when the stored object lacks them) and the distance metadata.  The
distance is only carried, never computed with, and is modelled as an
integer. -/
structure QueryResultObject where
  filename : Option String
  content : Option String
  source_url : Option String
  timestamp : Option String
  distance : Int
deriving DecidableEq, Repr

/-- One entry of the list returned by search_collection, built with the
defaulting property accesses of the source (properties.get with defaults). -/
structure SearchHit where
  filename : String
  content : String
  source_url : String
  timestamp : String
  distance : Int
deriving DecidableEq, Repr

/-- The per-object reshaping performed by the list comprehension at the end
of search_collection. -/
def reshape_result_object (o : QueryResultObject) : SearchHit :=
  { filename := o.filename.getD "Unknown",
    content := o.content.getD "",
    source_url := o.source_url.getD "",
    timestamp := o.timestamp.getD "",
    distance := o.distance }

/-- The search_collection helper of rag_helper.py.  The embedding model and
the client's near_vector query are external; they are parameters, and the
function embeds the query text, marshals the search parameters, executes the
client query once, and reshapes each result object in order. -/
def search_collection
    (near_vector_query : List Int → SearchParams → List QueryResultObject)
    (embed : String → List Int) (query : String) (limit : Nat := 10)
    (filters : Option (List (String × String)) := none) : List SearchHit :=
  let query_vector := embed query
  let search_params : SearchParams :=
    { limit := limit,
      return_metadata := ["distance"],
      return_properties := ["filename", "content", "source_url", "timestamp"],
      filters := build_search_filters filters }
  (near_vector_query query_vector search_params).map reshape_result_object

/-- Modelled from the spec: the Result type of agentic/swarm/types.py is not
part of the excerpt; it is the plain data carrier returned by tool calls,
holding a value string and context variables, as used by the three Result
subclasses of agentic/events.py. -/
structure SwarmResult where
  value : String := ""
  context_variables : List (String × String) := []
deriving DecidableEq, Repr

/-- The sentinel announcing a pause for external input. -/
def PAUSE_FOR_INPUT_SENTINEL : String := "__PAUSE4INPUT__"

/-- The sentinel announcing a pause for a child agent. -/
def PAUSE_FOR_CHILD_SENTINEL : String := "__PAUSE__CHILD"

/-- The sentinel announcing that the agent is finished. -/
def FINISH_AGENT_SENTINEL : String := "__FINISH__"

/-- The PauseForInputResult constructor: a Result whose value is the pause
for input sentinel and whose context variables are the request keys. -/
def PauseForInputResult (request_keys : List (String × String)) : SwarmResult :=
  { value := PAUSE_FOR_INPUT_SENTINEL, context_variables := request_keys }

/-- The matches_sentinel static method of PauseForInputResult. -/
def PauseForInputResult.matches_sentinel (value : String) : Bool :=
  value == PAUSE_FOR_INPUT_SENTINEL

/-- The PauseForChildResult constructor: a Result whose value is the pause
for child sentinel and whose context variables are the given values. -/
def PauseForChildResult (values : List (String × String)) : SwarmResult :=
  { value := PAUSE_FOR_CHILD_SENTINEL, context_variables := values }

/-- The matches_sentinel static method of PauseForChildResult. -/
def PauseForChildResult.matches_sentinel (value : String) : Bool :=
  value == PAUSE_FOR_CHILD_SENTINEL

/-- The FinishAgentResult constructor: a Result whose value is the finish
sentinel. -/
def FinishAgentResult : SwarmResult :=
  { value := FINISH_AGENT_SENTINEL }

/-- The matches_sentinel static method of FinishAgentResult. -/
def FinishAgentResult.matches_sentinel (value : String) : Bool :=
  value == FINISH_AGENT_SENTINEL

/-- A chat message, a Python dict with string keys and values. -/
abbrev ChatMessage := List (String × String)

/-- The payload dict of a TurnEnd event, with its fixed two keys: messages
and vars. -/
structure TurnEndPayload where
  messages : List ChatMessage
  vars : List (String × String)
deriving DecidableEq, Repr

/-- The TurnEnd event: the Event fields agent, type and payload, with the
payload shaped by the TurnEnd constructor. -/
structure TurnEnd where
  agent : String
  type : String
  payload : TurnEndPayload
deriving DecidableEq, Repr

/-- The TurnEnd constructor of agentic/events.py: type turn_end, and the
payload dict holding the messages and the context variables. -/
def TurnEnd.make (agent : String) (messages : List ChatMessage)
    (context_variables : List (String × String) := []) : TurnEnd :=
  { agent := agent, type := "turn_end",
    payload := { messages := messages, vars := context_variables } }

/-- The messages property of TurnEnd. -/
def TurnEnd.messages (e : TurnEnd) : List ChatMessage :=
  e.payload.messages

/-- The context_variables property of TurnEnd. -/
def TurnEnd.context_variables (e : TurnEnd) : List (String × String) :=
  e.payload.vars

/-- The result property of TurnEnd: the content entry of the last message.
Python indexing with minus one raises IndexError on an empty list, and the
bracket access raises KeyError when the entry is absent; both are modelled
as Except.error. -/
def TurnEnd.result (e : TurnEnd) : Except String String :=
  match (TurnEnd.messages e).getLast? with
  | none => .error "IndexError"
  | some m =>
    match m.lookup "content" with
    | none => .error "KeyError"
    | some c => .ok c

/-- A value stored in the FinishCompletion metadata dict: the model name is
a string, the other entries are numbers. -/
inductive MetaValue where
| str (s : String)
| num (n : Int)
deriving DecidableEq, Repr

/-- The FinishCompletion event: the Event fields plus the metadata dict.
The llm_message payload is carried as the string the browser tool passes. -/
structure FinishCompletion where
  agent : String
  type : String
  payload : String
  metadata : List (String × MetaValue)
deriving DecidableEq, Repr

/-- The create classmethod of FinishCompletion: builds the metadata dict
with the five fixed keys, replacing falsy cost, token and time values by
zero, and constructs the event.  Optional numbers model the int or None
annotations of the source. -/
def FinishCompletion.create (agent : String) (llm_message : String)
    (model : String) (cost : Option Int) (input_tokens : Option Int)
    (output_tokens : Option Int) (elapsed_time : Option Int) :
    FinishCompletion :=
  { agent := agent, type := "completion_end", payload := llm_message,
    metadata := [
      ("model", .str model),
      ("cost", .num (cost.getD 0)),
      ("input_tokens", .num (input_tokens.getD 0)),
      ("output_tokens", .num (output_tokens.getD 0)),
      ("elapsed_time", .num (elapsed_time.getD 0)) ] }

/-- The keyword parameters accepted by FinishCompletion.create, from its
signature in agentic/events.py. -/
def finishCompletionCreateParams : List String :=
  ["agent", "llm_message", "model", "cost", "input_tokens",
   "output_tokens", "elapsed_time"]

/-- The keyword arguments passed to FinishCompletion.create by
run_browser_agent in agentic/tools/browser_use.py. -/
def runBrowserAgentCreateKwargs : List String :=
  ["agent", "llm_message", "model", "cost", "input_tokens",
   "output_tokens", "elapsed_time", "depth"]

/-- Python keyword binding: a call binds only when every keyword argument
names a parameter of the callee; otherwise it raises TypeError. -/
def kwargsBind (params kwargs : List String) : Bool :=
  kwargs.all (fun k => params.contains k)

/-- An element of the list returned by run_browser_agent: a string or a
FinishCompletion event. -/
inductive BrowserReturnItem where
| content (s : String)
| completion (e : FinishCompletion)
deriving DecidableEq, Repr

/-- The run_browser_agent tool method, given a successful run of the
external browser agent: the extracted content lines of the run and the
totals of the token counter are its inputs.  It joins the content with
newlines and calls FinishCompletion.create with cost 0 and elapsed time 0;
that call passes the extra keyword argument depth, so it binds only if
create accepts depth. -/
def run_browser_agent (agent_name : String) (model : String)
    (extracted_content : List String) (total_input_tokens : Int)
    (total_output_tokens : Int) : Except String (List BrowserReturnItem) :=
  if kwargsBind finishCompletionCreateParams runBrowserAgentCreateKwargs then
    .ok [
      .content (String.intercalate "\n" extracted_content),
      .completion (FinishCompletion.create agent_name
        ("Tokens used - Input: " ++ toString total_input_tokens ++
         ", Output: " ++ toString total_output_tokens)
        model (some 0) (some total_input_tokens) (some total_output_tokens)
        (some 0)) ]
  else
    .error "TypeError: create got an unexpected keyword argument depth"

/-- A sample stored object used to evaluate the definitions on concrete
inputs. -/
def sampleObject : WObject :=
  { content := "alpha", document_id := "doc1", chunk_index := 0,
    filename := "a.txt", timestamp := "2026-01-01T00:00:00Z",
    mime_type := "text/plain", source_url := "None", summary := "s",
    fingerprint := "fp1", vector := [1, 2] }

/-- A sample client state with one collection named Docs holding one
object. -/
def sampleState : ClientState :=
  [("Docs", { config := standardSchema .cosine, objects := [sampleObject] })]

/-- A chunk of document doc2 carrying an old fingerprint, stored before the
chunk with the new one. -/
def chunkWithOldFingerprint : WObject :=
  { content := "old", document_id := "doc2", chunk_index := 0,
    filename := "b.txt", timestamp := "2026-01-01T00:00:00Z",
    mime_type := "text/plain", source_url := "None", summary := "",
    fingerprint := "fpOld", vector := [3] }

/-- A chunk of document doc2 carrying a new fingerprint, stored after the
chunk with the old one. -/
def chunkWithNewFingerprint : WObject :=
  { content := "new", document_id := "doc2", chunk_index := 1,
    filename := "b.txt", timestamp := "2026-01-02T00:00:00Z",
    mime_type := "text/plain", source_url := "None", summary := "",
    fingerprint := "fpNew", vector := [4] }

/-- A probing client query that records in its single result object whether
a filter was forwarded to the client and which one. -/
def probe_near_vector : List Int → SearchParams → List QueryResultObject :=
  fun _ params =>
    [{ filename := none,
       content := some (match params.filters with
         | some f => "filter " ++ f.prop ++ " equals " ++ f.value
         | none => "no filter forwarded"),
       source_url := none, timestamp := none, distance := 0 }]

/-- A trivial embedding model for concrete evaluations. -/
def probe_embed : String → List Int :=
  fun _ => [0]

end Agentic

namespace Agentic

/-! Helper lemmas about the client state operations, shared by the claim
theorems below. -/

/-- Deleting a collection removes every entry with its name. -/
theorem collections_exists_delete_self (s : ClientState) (n : String) :
    collections_exists (collections_delete s n) n = false := by
  simp only [collections_exists, collections_delete, List.any_eq_false]
  intro p hp
  rcases List.mem_filter.mp hp with ⟨-, hne⟩
  simpa using hne

/-- Searching a filtered list is searching the original list when every hit
of the search predicate passes the filter. -/
theorem find?_filter_of_imp {α : Type} (l : List α) (p q : α → Bool)
    (h : ∀ a, q a = true → p a = true) :
    (l.filter p).find? q = l.find? q := by
  induction l with
  | nil => rfl
  | cons a t ih =>
    rw [List.filter_cons]
    by_cases hp : p a = true
    · rw [if_pos hp, List.find?_cons, List.find?_cons]
      cases hqa : q a
      · exact ih
      · rfl
    · have hq : q a = false := by
        cases hqa : q a
        · rfl
        · exact absurd (h a hqa) hp
      rw [if_neg hp, List.find?_cons, hq]
      exact ih

/-- Searching a mapped list is searching the original list when the map
preserves the search predicate and fixes its hits. -/
theorem find?_map_fix {α : Type} (l : List α) (f : α → α) (q : α → Bool)
    (hq : ∀ a, q (f a) = q a) (hfix : ∀ a, q a = true → f a = a) :
    (l.map f).find? q = l.find? q := by
  induction l with
  | nil => rfl
  | cons a t ih =>
    rw [List.map_cons, List.find?_cons, List.find?_cons, hq a]
    cases hqa : q a
    · exact ih
    · rw [hfix a hqa]

/-- Deleting one collection leaves lookups of other names unchanged. -/
theorem collections_get_delete_ne (s : ClientState) (m n : String)
    (h : n ≠ m) :
    collections_get (collections_delete s m) n = collections_get s n := by
  unfold collections_get collections_delete
  rw [find?_filter_of_imp]
  intro a ha
  have han : a.1 = n := by simpa using ha
  simp [han, h]

/-- Lookup of a deleted collection fails. -/
theorem collections_get_delete_self (s : ClientState) (n : String) :
    collections_get (collections_delete s n) n = none := by
  simp only [collections_get, Option.map_eq_none', List.find?_eq_none]
  intro p hp
  rcases List.mem_filter.mp hp with ⟨-, hne⟩
  simpa using hne

/-- A collection exists exactly when its lookup succeeds. -/
theorem collections_exists_iff_get_isSome (s : ClientState) (n : String) :
    collections_exists s n = true ↔ (collections_get s n).isSome = true := by
  simp [collections_exists, collections_get, List.any_eq_true,
    List.find?_isSome]

/-- When a collection does not exist, no entry carries its name. -/
theorem collections_exists_false_iff (s : ClientState) (n : String) :
    collections_exists s n = false ↔ ∀ p ∈ s, (p.1 == n) = false := by
  simp [collections_exists, List.any_eq_false]

/-- Lookup distributes over concatenation of states. -/
theorem collections_get_append (s l : ClientState) (n : String) :
    collections_get (s ++ l) n =
      (collections_get s n).or (collections_get l n) := by
  simp only [collections_get, List.find?_append]
  cases s.find? (fun p => p.1 == n) <;> simp

/-- Adding objects in a batch touches no collection of another name. -/
theorem collections_get_batch_add_ne (s : ClientState) (m n : String)
    (objs : List WObject) (h : n ≠ m) :
    collections_get (batch_add_objects s m objs) n = collections_get s n := by
  unfold collections_get batch_add_objects
  rw [find?_map_fix]
  · intro a
    by_cases ha : a.1 = m <;> simp [ha]
  · intro a ha
    have han : a.1 = n := by simpa using ha
    have : (a.1 == m) = false := by simp [han, h]
    simp [this]

/-- A batch add on a state without the target name is the identity. -/
theorem batch_add_objects_absent (s : ClientState) (n : String)
    (objs : List WObject) (h : ∀ p ∈ s, (p.1 == n) = false) :
    batch_add_objects s n objs = s := by
  induction s with
  | nil => rfl
  | cons p rest ih =>
    have hp := h p (List.mem_cons_self p rest)
    have hrest : ∀ q ∈ rest, (q.1 == n) = false := fun q hq =>
      h q (List.mem_cons_of_mem p hq)
    have hrec : batch_add_objects rest n objs = rest := ih hrest
    unfold batch_add_objects at hrec ⊢
    rw [List.map_cons, hrec, if_neg (by simp [hp])]

/-- Batch add distributes over concatenation of states. -/
theorem batch_add_objects_append (s l : ClientState) (n : String)
    (objs : List WObject) :
    batch_add_objects (s ++ l) n objs =
      batch_add_objects s n objs ++ batch_add_objects l n objs := by
  simp [batch_add_objects]

/-- Deletion distributes over concatenation of states. -/
theorem collections_delete_append (s l : ClientState) (n : String) :
    collections_delete (s ++ l) n =
      collections_delete s n ++ collections_delete l n := by
  simp [collections_delete]

/-- C1: delete_document_from_index adds only parameter marshaling and
return-shaping around the client delete: for every collection state and
document id it leaves the collection as the client delete_many leaves it and
returns exactly the chunk count the client reports deleted for that document
id, and it never raises an error of its own. -/
theorem delete_document_from_index_is_client_delete
    (objects : List WObject) (document_id filename : String) :
    delete_document_from_index objects document_id filename =
      ((delete_many objects (fun o => o.document_id == document_id)).1,
       .ok (delete_many objects (fun o => o.document_id == document_id)).2) := by
  unfold delete_document_from_index delete_many aggregate_total_count
  simp

/-- C4 (failing evaluation): every call of run_browser_agent on a successful
browser run raises TypeError, because it passes the keyword argument depth
to FinishCompletion.create, whose signature does not accept it; no
two-element list is ever returned. -/
theorem run_browser_agent_always_raises (agent_name model : String)
    (extracted_content : List String)
    (total_input_tokens total_output_tokens : Int) :
    run_browser_agent agent_name model extracted_content
        total_input_tokens total_output_tokens =
      .error "TypeError: create got an unexpected keyword argument depth" := by
  unfold run_browser_agent
  rfl

/-- C6: each of the three Result subclasses carries a value matching its own
matches_sentinel, the three sentinel strings are pairwise distinct, and each
matches_sentinel rejects the values of the other two classes. -/
theorem result_sentinels_distinguish :
    (∀ request_keys : List (String × String),
      PauseForInputResult.matches_sentinel
        (PauseForInputResult request_keys).value = true) ∧
    (∀ values : List (String × String),
      PauseForChildResult.matches_sentinel
        (PauseForChildResult values).value = true) ∧
    FinishAgentResult.matches_sentinel FinishAgentResult.value = true ∧
    PAUSE_FOR_INPUT_SENTINEL ≠ PAUSE_FOR_CHILD_SENTINEL ∧
    PAUSE_FOR_INPUT_SENTINEL ≠ FINISH_AGENT_SENTINEL ∧
    PAUSE_FOR_CHILD_SENTINEL ≠ FINISH_AGENT_SENTINEL ∧
    (∀ values, PauseForInputResult.matches_sentinel
      (PauseForChildResult values).value = false) ∧
    PauseForInputResult.matches_sentinel FinishAgentResult.value = false ∧
    (∀ request_keys, PauseForChildResult.matches_sentinel
      (PauseForInputResult request_keys).value = false) ∧
    PauseForChildResult.matches_sentinel FinishAgentResult.value = false ∧
    (∀ request_keys, FinishAgentResult.matches_sentinel
      (PauseForInputResult request_keys).value = false) ∧
    (∀ values, FinishAgentResult.matches_sentinel
      (PauseForChildResult values).value = false) := by
  refine ⟨fun _ => rfl, fun _ => rfl, rfl, ?_, ?_, ?_, fun _ => rfl, rfl,
    fun _ => rfl, rfl, fun _ => rfl, fun _ => rfl⟩ <;> decide

/-- C7: create_collection is a no-op when the collection already exists, and
calling it twice with the same arguments equals calling it once. -/
theorem create_collection_idempotent (s : ClientState) (index_name : String)
    (distance_metric : VectorDistances) :
    (collections_exists s index_name = true →
      create_collection s index_name distance_metric = s) ∧
    create_collection (create_collection s index_name distance_metric)
        index_name distance_metric =
      create_collection s index_name distance_metric := by
  constructor
  · intro h
    unfold create_collection
    rw [h]
    rfl
  · by_cases h : collections_exists s index_name = true
    · have h1 : create_collection s index_name distance_metric = s := by
        unfold create_collection
        rw [h]
        rfl
      rw [h1, h1]
    · have h0 : collections_exists s index_name = false :=
        Bool.not_eq_true _ ▸ Bool.of_not_eq_true h
      have h1 : create_collection s index_name distance_metric =
          collections_create s index_name (standardSchema distance_metric) := by
        unfold create_collection
        rw [h0]
        rfl
      have h2 : collections_exists
          (collections_create s index_name (standardSchema distance_metric))
          index_name = true := by
        simp [collections_exists, collections_create]
      rw [h1]
      unfold create_collection
      rw [h2]
      rfl

/-- C7 witness: on the sample state, creating the existing Docs collection
is a no-op, and creating it twice equals creating it once. -/
theorem create_collection_idempotent_witness :
    create_collection sampleState "Docs" .cosine = sampleState ∧
    create_collection (create_collection sampleState "Docs" .cosine)
        "Docs" .cosine = create_collection sampleState "Docs" .cosine :=
  ⟨(create_collection_idempotent sampleState "Docs" .cosine).1 (by decide),
   (create_collection_idempotent sampleState "Docs" .cosine).2⟩

/-- C9: a TurnEnd event returns its messages and context variables unchanged
from the corresponding properties, and for a nonempty message list whose
last message carries a content entry, the result property is exactly that
entry. -/
theorem turn_end_plain_data_carrier (agent : String)
    (messages : List ChatMessage)
    (context_variables : List (String × String)) :
    (TurnEnd.make agent messages context_variables).messages = messages ∧
    (TurnEnd.make agent messages context_variables).context_variables =
      context_variables ∧
    (∀ m c, messages.getLast? = some m → m.lookup "content" = some c →
      (TurnEnd.make agent messages context_variables).result = .ok c) := by
  refine ⟨rfl, rfl, fun m c hm hc => ?_⟩
  unfold TurnEnd.result
  have hmsgs : (TurnEnd.make agent messages context_variables).messages =
      messages := rfl
  rw [hmsgs, hm]
  simp [hc]

/-- C9 witness: a concrete TurnEnd whose properties return the constructor
arguments and whose result is the content of the last message. -/
theorem turn_end_plain_data_carrier_witness :
    (TurnEnd.make "sales" [[("role", "assistant"), ("content", "done")]]
      [("city", "Paris")]).messages =
        [[("role", "assistant"), ("content", "done")]] ∧
    (TurnEnd.make "sales" [[("role", "assistant"), ("content", "done")]]
      [("city", "Paris")]).context_variables = [("city", "Paris")] ∧
    (TurnEnd.make "sales" [[("role", "assistant"), ("content", "done")]]
      [("city", "Paris")]).result = .ok "done" :=
  ⟨(turn_end_plain_data_carrier "sales"
      [[("role", "assistant"), ("content", "done")]] [("city", "Paris")]).1,
   (turn_end_plain_data_carrier "sales"
      [[("role", "assistant"), ("content", "done")]] [("city", "Paris")]).2.1,
   (turn_end_plain_data_carrier "sales"
      [[("role", "assistant"), ("content", "done")]] [("city", "Paris")]).2.2
      [("role", "assistant"), ("content", "done")] "done" rfl rfl⟩

/-- C10: the document id of prepare_document_metadata is the first component
of get_document_id_from_path, which is the digest of the extracted filename
(the last URL path component for http or https paths, the pathlib name
otherwise), and it does not depend on the text, the mime type or the
model. -/
theorem document_id_depends_on_path_only
    (sha256_hex generate_fingerprint : String → String)
    (utcnow file_path text mime_type model : String) :
    (prepare_document_metadata sha256_hex generate_fingerprint utcnow
        file_path text mime_type model).document_id =
      (get_document_id_from_path sha256_hex file_path).1 ∧
    (get_document_id_from_path sha256_hex file_path).1 =
      sha256_hex (if isUrl file_path then get_last_path_component file_path
                  else pathlibName file_path) ∧
    (∀ text2 mime_type2 model2,
      (prepare_document_metadata sha256_hex generate_fingerprint utcnow
          file_path text2 mime_type2 model2).document_id =
        (prepare_document_metadata sha256_hex generate_fingerprint utcnow
          file_path text mime_type model).document_id) := by
  refine ⟨rfl, ?_, fun _ _ _ => rfl⟩
  unfold get_document_id_from_path
  cases h : isUrl file_path <;> simp [h]

/-- C3 counterexample: a filters dict with two entries is nonempty, yet the
search parameters handed to the client carry no filter at all — the probing
client sees no filter forwarded, refuting the claim for every nonempty
filters dict. -/
theorem search_collection_two_entry_filters_dropped :
    search_collection probe_near_vector probe_embed "q" 10
        (some [("filename", "a.txt"), ("mime_type", "text/plain")]) =
      [{ filename := "Unknown", content := "no filter forwarded",
         source_url := "", timestamp := "", distance := 0 }] ∧
    build_search_filters
        (some [("filename", "a.txt"), ("mime_type", "text/plain")]) =
      none := by
  exact ⟨rfl, rfl⟩

/-- C3 (amended): for every query, limit and filters dict with exactly one
entry, search_collection embeds the query, forwards the limit, the distance
metadata selection, the four property selections and the property-equality
filter built from that single entry to the client near_vector query, and
returns one reshaped dict per result object in the client result order; an
object carrying all four properties is reshaped to exactly its filename,
content, source_url, timestamp and distance. -/
theorem search_collection_marshals_singleton_filter
    (near_vector_query : List Int → SearchParams → List QueryResultObject)
    (embed : String → List Int) (query : String) (limit : Nat)
    (key value : String) :
    search_collection near_vector_query embed query limit
        (some [(key, value)]) =
      (near_vector_query (embed query)
        { limit := limit,
          return_metadata := ["distance"],
          return_properties :=
            ["filename", "content", "source_url", "timestamp"],
          filters := some { prop := key, value := value } }).map
        reshape_result_object ∧
    (∀ filename content source_url timestamp distance,
      reshape_result_object
        { filename := some filename, content := some content,
          source_url := some source_url, timestamp := some timestamp,
          distance := distance } =
      { filename := filename, content := content, source_url := source_url,
        timestamp := timestamp, distance := distance }) :=
  ⟨rfl, fun _ _ _ _ _ => rfl⟩

/-- C8: rename_collection returns False exactly when the source collection
does not exist or the target exists without overwrite, and whenever it
returns False the client state is left entirely unchanged. -/
theorem rename_collection_false_leaves_state
    (s : ClientState) (source_name target_name : String) (overwrite : Bool) :
    ((rename_collection s source_name target_name overwrite).2 = false ↔
      (collections_exists s source_name = false ∨
       (collections_exists s target_name = true ∧ overwrite = false))) ∧
    ((rename_collection s source_name target_name overwrite).2 = false →
      (rename_collection s source_name target_name overwrite).1 = s) := by
  unfold rename_collection
  cases hs : collections_exists s source_name
  · simp
  · cases ht : collections_exists s target_name
    · cases overwrite <;> simp
    · cases overwrite <;> simp

/-- C8 witness: renaming from a missing source returns False and leaves the
sample state untouched. -/
theorem rename_collection_false_leaves_state_witness :
    (rename_collection sampleState "Missing" "Docs" false).2 = false ∧
    (rename_collection sampleState "Missing" "Docs" false).1 = sampleState :=
  ⟨(rename_collection_false_leaves_state sampleState "Missing" "Docs"
      false).1.mpr (Or.inl (by decide)),
   (rename_collection_false_leaves_state sampleState "Missing" "Docs"
      false).2
     ((rename_collection_false_leaves_state sampleState "Missing" "Docs"
        false).1.mpr (Or.inl (by decide)))⟩

/-- C5 counterexample: with two chunks of the same document carrying
different stored fingerprints, an object with the given document id and the
given fingerprint exists, yet check_document_exists compares only the first
fetched chunk and answers changed, not unchanged — refuting the claim over
every collection state. -/
theorem check_document_exists_mixed_fingerprints :
    (∃ o ∈ [chunkWithOldFingerprint, chunkWithNewFingerprint],
      o.document_id = "doc2" ∧ o.fingerprint = "fpNew") ∧
    check_document_exists [chunkWithOldFingerprint, chunkWithNewFingerprint]
      "doc2" "fpNew" = (true, "changed") ∧
    check_document_exists [chunkWithOldFingerprint, chunkWithNewFingerprint]
      "doc2" "fpNew" ≠ (true, "unchanged") := by
  refine ⟨?_, rfl, ?_⟩ <;> decide

/-- C5 (amended): on every collection whose objects with the given document
id agree on their stored fingerprint (one fingerprint per document, as the
indexing pipeline stores it), check_document_exists returns unchanged,
changed, duplicate or new exactly as the claim states, and the boolean is
true exactly when the status is not new. -/
theorem check_document_exists_cases (objects : List WObject)
    (document_id fingerprint : String)
    (hconsistent : ∀ o1 ∈ objects, ∀ o2 ∈ objects,
      o1.document_id = document_id → o2.document_id = document_id →
      o1.fingerprint = o2.fingerprint) :
    ((∃ o ∈ objects, o.document_id = document_id ∧
        o.fingerprint = fingerprint) →
      check_document_exists objects document_id fingerprint =
        (true, "unchanged")) ∧
    ((∃ o ∈ objects, o.document_id = document_id ∧
        o.fingerprint ≠ fingerprint) →
      check_document_exists objects document_id fingerprint =
        (true, "changed")) ∧
    (((∀ o ∈ objects, o.document_id ≠ document_id) ∧
      (∃ o ∈ objects, o.fingerprint = fingerprint)) →
      check_document_exists objects document_id fingerprint =
        (true, "duplicate")) ∧
    (((∀ o ∈ objects, o.document_id ≠ document_id) ∧
      (∀ o ∈ objects, o.fingerprint ≠ fingerprint)) →
      check_document_exists objects document_id fingerprint =
        (false, "new")) ∧
    ((check_document_exists objects document_id fingerprint).1 = true ↔
      (check_document_exists objects document_id fingerprint).2 ≠ "new") := by
  cases hfd : objects.filter (fun o => o.document_id == document_id) with
  | nil =>
    have hnodoc : ∀ o ∈ objects, o.document_id ≠ document_id := by
      intro o ho
      simpa using List.filter_eq_nil_iff.mp hfd o ho
    cases hfc : objects.filter (fun o => o.fingerprint == fingerprint) with
    | nil =>
      have hnofp : ∀ o ∈ objects, o.fingerprint ≠ fingerprint := by
        intro o ho
        simpa using List.filter_eq_nil_iff.mp hfc o ho
      have hr : check_document_exists objects document_id fingerprint =
          (false, "new") := by
        simp only [check_document_exists, fetch_objects]
        rw [hfd]
        simp [hfc]
      refine ⟨?_, ?_, ?_, fun _ => hr, ?_⟩
      · rintro ⟨o, ho, hdoc, -⟩
        exact absurd hdoc (hnodoc o ho)
      · rintro ⟨o, ho, hdoc, -⟩
        exact absurd hdoc (hnodoc o ho)
      · rintro ⟨-, o, ho, hfp⟩
        exact absurd hfp (hnofp o ho)
      · rw [hr]
        decide
    | cons c0 crest =>
      have hc0mem : c0 ∈ objects.filter
          (fun o => o.fingerprint == fingerprint) := by
        rw [hfc]
        exact List.mem_cons_self c0 crest
      have hc0 : c0 ∈ objects ∧ (c0.fingerprint == fingerprint) = true :=
        List.mem_filter.mp hc0mem
      have hr : check_document_exists objects document_id fingerprint =
          (true, "duplicate") := by
        simp only [check_document_exists, fetch_objects]
        rw [hfd]
        simp [hfc]
      refine ⟨?_, ?_, fun _ => hr, ?_, ?_⟩
      · rintro ⟨o, ho, hdoc, -⟩
        exact absurd hdoc (hnodoc o ho)
      · rintro ⟨o, ho, hdoc, -⟩
        exact absurd hdoc (hnodoc o ho)
      · rintro ⟨-, hnofp⟩
        exact absurd (by simpa using hc0.2) (hnofp c0 hc0.1)
      · rw [hr]
        decide
  | cons o0 rest =>
    have ho0mem : o0 ∈ objects.filter
        (fun o => o.document_id == document_id) := by
      rw [hfd]
      exact List.mem_cons_self o0 rest
    obtain ⟨ho0, ho0beq⟩ := List.mem_filter.mp ho0mem
    have ho0doc : o0.document_id = document_id := by simpa using ho0beq
    by_cases hfp0 : o0.fingerprint = fingerprint
    · have hr : check_document_exists objects document_id fingerprint =
          (true, "unchanged") := by
        simp only [check_document_exists, fetch_objects]
        rw [hfd]
        simp [hfp0]
      refine ⟨fun _ => hr, ?_, ?_, ?_, ?_⟩
      · rintro ⟨o, ho, hdoc, hfpne⟩
        have heq := hconsistent o ho o0 ho0 hdoc ho0doc
        exact absurd (heq.trans hfp0) hfpne
      · rintro ⟨hnodoc, -⟩
        exact absurd ho0doc (hnodoc o0 ho0)
      · rintro ⟨hnodoc, -⟩
        exact absurd ho0doc (hnodoc o0 ho0)
      · rw [hr]
        decide
    · have hr : check_document_exists objects document_id fingerprint =
          (true, "changed") := by
        simp only [check_document_exists, fetch_objects]
        rw [hfd]
        simp [hfp0]
      refine ⟨?_, fun _ => hr, ?_, ?_, ?_⟩
      · rintro ⟨o, ho, hdoc, hfpeq⟩
        have heq := hconsistent o0 ho0 o ho ho0doc hdoc
        exact absurd (heq.trans hfpeq) hfp0
      · rintro ⟨hnodoc, -⟩
        exact absurd ho0doc (hnodoc o0 ho0)
      · rintro ⟨hnodoc, -⟩
        exact absurd ho0doc (hnodoc o0 ho0)
      · rw [hr]
        decide

/-- Core of the rename path: once the target has been cleared, creating the
target, copying the source objects and deleting the source produces a state
whose target holds exactly the source objects, whose source is gone, and
whose other collections are untouched. -/
theorem rename_core (s1 : ClientState) (src tgt : String)
    (csrc : WCollection) (hne : src ≠ tgt)
    (h1tgt : collections_exists s1 tgt = false)
    (h1src : collections_get s1 src = some csrc) :
    (collections_get (collections_delete (batch_add_objects
        (create_collection s1 tgt) tgt
        (match collections_get (create_collection s1 tgt) src with
         | some c => c.objects
         | none => [])) src) tgt).map (fun c => c.objects) =
      some csrc.objects ∧
    collections_get (collections_delete (batch_add_objects
        (create_collection s1 tgt) tgt
        (match collections_get (create_collection s1 tgt) src with
         | some c => c.objects
         | none => [])) src) src = none ∧
    (∀ n, n ≠ src → n ≠ tgt →
      collections_get (collections_delete (batch_add_objects
          (create_collection s1 tgt) tgt
          (match collections_get (create_collection s1 tgt) src with
           | some c => c.objects
           | none => [])) src) n = collections_get s1 n) := by
  have hAllne : ∀ p ∈ s1, (p.1 == tgt) = false :=
    (collections_exists_false_iff s1 tgt).mp h1tgt
  have h2 : create_collection s1 tgt =
      s1 ++ [(tgt, { config := standardSchema .cosine, objects := [] })] := by
    unfold create_collection
    rw [h1tgt]
    rfl
  have hget2 : collections_get (create_collection s1 tgt) src = some csrc := by
    rw [h2, collections_get_append, h1src]
    rfl
  have hobjs : (match collections_get (create_collection s1 tgt) src with
      | some c => c.objects
      | none => []) = csrc.objects := by
    rw [hget2]
  rw [hobjs]
  have hs3 : batch_add_objects (create_collection s1 tgt) tgt csrc.objects =
      s1 ++ [(tgt, { config := standardSchema .cosine,
                     objects := csrc.objects })] := by
    rw [h2, batch_add_objects_append, batch_add_objects_absent s1 tgt _ hAllne]
    simp [batch_add_objects]
  have hs4 : collections_delete (batch_add_objects (create_collection s1 tgt)
        tgt csrc.objects) src =
      collections_delete s1 src ++
        [(tgt, { config := standardSchema .cosine,
                 objects := csrc.objects })] := by
    rw [hs3, collections_delete_append]
    have hone : collections_delete
        [(tgt, { config := standardSchema .cosine,
                 objects := csrc.objects })] src =
        [(tgt, { config := standardSchema .cosine,
                 objects := csrc.objects })] := by
      simp [collections_delete, Ne.symm hne]
    rw [hone]
  have hnotgt : collections_get (collections_delete s1 src) tgt = none := by
    simp only [collections_get, Option.map_eq_none', List.find?_eq_none]
    intro p hp
    have hpmem : p ∈ s1 := (List.mem_filter.mp hp).1
    simp [hAllne p hpmem]
  refine ⟨?_, ?_, ?_⟩
  · rw [hs4, collections_get_append, hnotgt]
    simp [collections_get]
  · rw [hs4, collections_get_append, collections_get_delete_self]
    simp [collections_get, Ne.symm hne]
  · intro n hn1 hn2
    rw [hs4, collections_get_append]
    have hsingle : collections_get
        [(tgt, { config := standardSchema .cosine,
                 objects := csrc.objects })] n = none := by
      simp [collections_get, Ne.symm hn2]
    rw [hsingle, Option.or_none, collections_get_delete_ne s1 src n hn1]

/-- C2 counterexample: renaming Docs onto itself with overwrite satisfies
the claim's stated precondition (the source exists and overwrite is true),
yet the call returns True while the data is destroyed: the final state holds
no Docs collection at all, so the target does not hold the source objects. -/
theorem rename_collection_self_rename_destroys :
    collections_exists sampleState "Docs" = true ∧
    (rename_collection sampleState "Docs" "Docs" true).2 = true ∧
    (rename_collection sampleState "Docs" "Docs" true).1 = [] ∧
    ¬((collections_get (rename_collection sampleState "Docs" "Docs" true).1
          "Docs").map (fun c => c.objects) =
        (collections_get sampleState "Docs").map (fun c => c.objects)) := by
  refine ⟨rfl, rfl, rfl, ?_⟩
  decide

/-- C2 (amended): when the source exists, the target either does not exist
or overwrite is set, and the target name differs from the source name,
rename_collection returns True and leaves the client in the state of a
client-level rename: the target holds exactly the source objects with their
vectors, the source is deleted, and every other collection is untouched. -/
theorem rename_collection_is_client_rename (s : ClientState)
    (source_name target_name : String) (overwrite : Bool)
    (hsource : collections_exists s source_name = true)
    (htarget : collections_exists s target_name = false ∨ overwrite = true)
    (hne : source_name ≠ target_name) :
    (rename_collection s source_name target_name overwrite).2 = true ∧
    (collections_get
        (rename_collection s source_name target_name overwrite).1
        target_name).map (fun c => c.objects) =
      (collections_get s source_name).map (fun c => c.objects) ∧
    collections_get (rename_collection s source_name target_name overwrite).1
      source_name = none ∧
    (∀ n, n ≠ source_name → n ≠ target_name →
      collections_get
          (rename_collection s source_name target_name overwrite).1 n =
        collections_get s n) := by
  obtain ⟨csrc, hcsrc⟩ : ∃ c, collections_get s source_name = some c :=
    Option.isSome_iff_exists.mp
      ((collections_exists_iff_get_isSome s source_name).mp hsource)
  cases hT : collections_exists s target_name with
  | false =>
    have hred : rename_collection s source_name target_name overwrite =
        (collections_delete (batch_add_objects
          (create_collection s target_name) target_name
          (match collections_get (create_collection s target_name)
              source_name with
           | some c => c.objects
           | none => [])) source_name, true) := by
      unfold rename_collection
      rw [hsource, hT]
      rfl
    have hc := rename_core s source_name target_name csrc hne hT hcsrc
    rw [hred]
    refine ⟨rfl, ?_, hc.2.1, hc.2.2⟩
    rw [hcsrc]
    exact hc.1
  | true =>
    have how : overwrite = true := by
      rcases htarget with h | h
      · rw [hT] at h
        cases h
      · exact h
    have h1tgt : collections_exists (collections_delete s target_name)
        target_name = false := collections_exists_delete_self s target_name
    have hcsrc1 : collections_get (collections_delete s target_name)
        source_name = some csrc :=
      (collections_get_delete_ne s target_name source_name hne).trans hcsrc
    have hred : rename_collection s source_name target_name overwrite =
        (collections_delete (batch_add_objects
          (create_collection (collections_delete s target_name) target_name)
          target_name
          (match collections_get
              (create_collection (collections_delete s target_name)
                target_name) source_name with
           | some c => c.objects
           | none => [])) source_name, true) := by
      unfold rename_collection
      rw [hsource, hT, how]
      rfl
    have hc := rename_core (collections_delete s target_name) source_name
      target_name csrc hne h1tgt hcsrc1
    rw [hred]
    refine ⟨rfl, ?_, hc.2.1, ?_⟩
    · rw [hcsrc]
      exact hc.1
    · intro n hn1 hn2
      rw [hc.2.2 n hn1 hn2,
        collections_get_delete_ne s target_name n hn2]

/-- C2 witness: renaming the sample Docs collection to the fresh name
Archive returns True, moves the single object with its vector, deletes Docs
and leaves the unrelated name Other untouched. -/
theorem rename_collection_is_client_rename_witness :
    (rename_collection sampleState "Docs" "Archive" false).2 = true ∧
    (collections_get (rename_collection sampleState "Docs" "Archive" false).1
        "Archive").map (fun c => c.objects) =
      (collections_get sampleState "Docs").map (fun c => c.objects) ∧
    collections_get (rename_collection sampleState "Docs" "Archive" false).1
      "Docs" = none ∧
    collections_get (rename_collection sampleState "Docs" "Archive" false).1
      "Other" = collections_get sampleState "Other" :=
  ⟨(rename_collection_is_client_rename sampleState "Docs" "Archive" false
      (by decide) (Or.inl (by decide)) (by decide)).1,
   (rename_collection_is_client_rename sampleState "Docs" "Archive" false
      (by decide) (Or.inl (by decide)) (by decide)).2.1,
   (rename_collection_is_client_rename sampleState "Docs" "Archive" false
      (by decide) (Or.inl (by decide)) (by decide)).2.2.1,
   (rename_collection_is_client_rename sampleState "Docs" "Archive" false
      (by decide) (Or.inl (by decide)) (by decide)).2.2.2 "Other"
     (by decide) (by decide)⟩

/-- C5 witness: on a one-object collection, the stored document with the
same fingerprint is reported unchanged. -/
theorem check_document_exists_cases_witness :
    check_document_exists [sampleObject] "doc1" "fp1" =
      (true, "unchanged") :=
  (check_document_exists_cases [sampleObject] "doc1" "fp1"
    (by decide)).1 (by decide)

end Agentic
